import Mathlib

/-!
Verification of the demo/test harness `demo.py` of a hand-built deep-learning
framework. The orchestration code (`demo.py`) is embedded directly; the module
library it exercises (`Module`, `modules`, `optimizers`, `helpers`) is not part
of the sources, so those parts are modelled from the specification, each with a
doc comment saying so. Tensors are modelled as lists of rationals (exact
arithmetic in place of floating point).
-/

/-- Python exceptions as observed by the demo file: `AssertionError` (caught by
the negative tests) versus any other error (propagates uncaught). -/
inductive PyErr where
  | assertionError (msg : String)
  | otherError (msg : String)
deriving DecidableEq, Repr

/-- The 4-tuple returned by the external loader `load_data_p2`:
(train_input, train_target, test_input, test_target), each a 2-d tensor
modelled as a list of rows. -/
structure LoadedData where
  trainInput : List (List ℚ)
  trainTarget : List (List ℚ)
  testInput : List (List ℚ)
  testTarget : List (List ℚ)
deriving DecidableEq, Repr

/-- `demo.py` lines 10-15: `load_mock_test_data` keeps the loader's inputs and
replaces each target by its column of index 1 reshaped to an (N, 1) column
(`target[:,1].view(-1,1)`). Column extraction `row[1]` is modelled totally with
`getD` (Python would raise on rows of width < 2). -/
def load_mock_test_data (d : LoadedData) : LoadedData :=
  { trainInput := d.trainInput
    trainTarget := d.trainTarget.map (fun row => [row.getD 1 0])
    testInput := d.testInput
    testTarget := d.testTarget.map (fun row => [row.getD 1 0]) }

/-! ## The standalone linear test: custom framework vs reference framework

`test_standalone_linear_module` trains `Linear('fc1', 2, 1)` with `MSELoss`
under SGD against `nn.Linear(2, 1)` with `nn.MSELoss` from identical initial
parameters (`train_custom_and_torch`, 301 epochs, lr = 0.01). Both sides are
modelled over exact rationals. A training sample is `((x1, x2), t)`. -/

/-- Parameters of a 2-input, 1-output linear layer. -/
structure LinParams where
  w1 : ℚ
  w2 : ℚ
  b : ℚ
deriving DecidableEq, Repr

/-- Modelled from the spec: the hand-built `Linear` module's state — its
parameters, the input saved for the backward pass, and the accumulated
parameter gradients. -/
structure CustomLinear where
  p : LinParams
  saved : Option (List (ℚ × ℚ))
  gw1 : ℚ
  gw2 : ℚ
  gb : ℚ
deriving DecidableEq, Repr

/-- A freshly constructed custom linear module with given parameters:
no forward pass has run, gradients are zero. -/
def CustomLinear.init (p : LinParams) : CustomLinear :=
  { p := p, saved := none, gw1 := 0, gw2 := 0, gb := 0 }

/-- Modelled from the spec: `optimizer.zero_grad()` resets the accumulated
gradients of the module's parameters. -/
def zeroGrad (m : CustomLinear) : CustomLinear :=
  { m with gw1 := 0, gw2 := 0, gb := 0 }

/-- Modelled from the spec: the custom linear forward pass computes
`w1*x1 + w2*x2 + b` per sample and saves its input for backward. -/
def linForward (m : CustomLinear) (xs : List (ℚ × ℚ)) :
    List ℚ × CustomLinear :=
  (xs.map (fun x => m.p.w1 * x.1 + m.p.w2 * x.2 + m.p.b),
   { m with saved := some xs })

/-- Modelled from the spec: the custom linear backward pass accumulates, from
the saved input and the incoming output gradient, the parameter gradients
`gw = sum g_i * x_i`, `gb = sum g_i`. -/
def linBackward (m : CustomLinear) (gradOut : List ℚ) : CustomLinear :=
  match m.saved with
  | none => m
  | some xs =>
      let pairs := xs.zip gradOut
      { m with
        gw1 := m.gw1 + (pairs.map (fun q => q.2 * q.1.1)).sum
        gw2 := m.gw2 + (pairs.map (fun q => q.2 * q.1.2)).sum
        gb := m.gb + (pairs.map (fun q => q.2)).sum }

/-- Modelled from the spec: `MSELoss` forward — mean of squared differences
over the batch; it saves the (output, target) pairs for its backward pass. -/
def mseApply (out tgt : List ℚ) : ℚ × List (ℚ × ℚ) :=
  let pairs := out.zip tgt
  ((pairs.map (fun q => (q.1 - q.2) ^ 2)).sum / (pairs.length : ℚ), pairs)

/-- Modelled from the spec: `MSELoss.backward` — gradient of the mean squared
error with respect to the output, `2 * (o_i - t_i) / N`. -/
def mseBackward (saved : List (ℚ × ℚ)) : List ℚ :=
  saved.map (fun q => 2 * (q.1 - q.2) / (saved.length : ℚ))

/-- Modelled from the spec: the custom `SGD.step` update
`param := param - lr * grad`. -/
def sgdStep (lr : ℚ) (m : CustomLinear) : CustomLinear :=
  { m with p := { w1 := m.p.w1 - lr * m.gw1
                  w2 := m.p.w2 - lr * m.gw2
                  b := m.p.b - lr * m.gb } }

/-- One epoch of the custom-framework half of `train_custom_and_torch`
(demo.py lines 24-32): zero_grad, forward, loss, criterion backward, model
backward, optimizer step. Returns the epoch's loss and the updated module. -/
def customEpoch (lr : ℚ) (data : List ((ℚ × ℚ) × ℚ)) (m : CustomLinear) :
    ℚ × CustomLinear :=
  let m0 := zeroGrad m
  let fwd := linForward m0 (data.map Prod.fst)
  let lossAndSaved := mseApply fwd.1 (data.map Prod.snd)
  let gradOut := mseBackward lossAndSaved.2
  let m1 := linBackward fwd.2 gradOut
  (lossAndSaved.1, sgdStep lr m1)

/-- Per-epoch loss history of the custom training loop. -/
def customLossHistory (lr : ℚ) (data : List ((ℚ × ℚ) × ℚ)) :
    CustomLinear → ℕ → List ℚ
  | _, 0 => []
  | m, n + 1 =>
      let step := customEpoch lr data m
      step.1 :: customLossHistory lr data step.2 n

/-- Modelled from the spec: the reference framework's MSE loss of a 2-input,
1-output linear model on the batch. -/
def torchLoss (data : List ((ℚ × ℚ) × ℚ)) (p : LinParams) : ℚ :=
  ((data.map (fun s =>
      (p.w1 * s.1.1 + p.w2 * s.1.2 + p.b - s.2) ^ 2)).sum) / (data.length : ℚ)

/-- Modelled from the spec: the reference framework's autograd yields the exact
gradient of the MSE loss with respect to each parameter, and `optim.SGD.step`
applies `param := param - lr * grad`. -/
def torchEpoch (lr : ℚ) (data : List ((ℚ × ℚ) × ℚ)) (p : LinParams) :
    ℚ × LinParams :=
  let n : ℚ := (data.length : ℚ)
  let g1 := 2 / n * (data.map (fun s =>
      (p.w1 * s.1.1 + p.w2 * s.1.2 + p.b - s.2) * s.1.1)).sum
  let g2 := 2 / n * (data.map (fun s =>
      (p.w1 * s.1.1 + p.w2 * s.1.2 + p.b - s.2) * s.1.2)).sum
  let g0 := 2 / n * (data.map (fun s =>
      (p.w1 * s.1.1 + p.w2 * s.1.2 + p.b - s.2))).sum
  (torchLoss data p,
   { w1 := p.w1 - lr * g1, w2 := p.w2 - lr * g2, b := p.b - lr * g0 })

/-- Per-epoch loss history of the reference-framework training loop
(demo.py lines 38-44). -/
def torchLossHistory (lr : ℚ) (data : List ((ℚ × ℚ) × ℚ)) :
    LinParams → ℕ → List ℚ
  | _, 0 => []
  | p, n + 1 =>
      let step := torchEpoch lr data p
      step.1 :: torchLossHistory lr data step.2 n

/-! ## The module library (spec-modelled)

The `Module`/`modules` library is not among the sources; only its callers in
`demo.py` are. The stateful skeleton below is modelled from the spec: each
module has a name, a kind, and a saved-for-backward slot; a model has a
training/evaluation mode; numeric layer semantics are a parameter
(`f : LayerKind → List (List ℚ) → List (List ℚ)`), since activations such as
tanh and sigmoid are real-valued and irrelevant to the stateful claims. -/

/-- The layer kinds used by `demo.py`. -/
inductive LayerKind where
  | linear (inF outF : ℕ)
  | relu
  | tanh
  | sigmoid
deriving DecidableEq, Repr

/-- Modelled from the spec: a module of the hidden library — a name, a kind,
and the saved-for-backward state populated by a training-mode forward pass. -/
structure SModule where
  name : String
  kind : LayerKind
  saveForBackward : Option (List (List ℚ))
deriving DecidableEq, Repr

/-- `Linear(name, in, out)`: a named linear layer, freshly constructed
(no forward pass yet). -/
def Linear (nm : String) (inF outF : ℕ) : SModule :=
  { name := nm, kind := .linear inF outF, saveForBackward := none }

/-- `ReLU()`: an unnamed activation layer; it receives the default name
`relu`. -/
def ReLU : SModule := { name := "relu", kind := .relu, saveForBackward := none }

/-- `Tanh()`: an unnamed activation layer; it receives the default name
`tanh`. -/
def Tanh : SModule := { name := "tanh", kind := .tanh, saveForBackward := none }

/-- `Sigmoid()`: an unnamed activation layer; it receives the default name
`sigmoid`. -/
def Sigmoid : SModule :=
  { name := "sigmoid", kind := .sigmoid, saveForBackward := none }

/-- A sequential model: a training/evaluation flag and an ordered list of
child modules (`model._children`). -/
structure SeqNet where
  training : Bool
  layers : List SModule
deriving DecidableEq, Repr

/-- Modelled from the spec: `Sequential` registers its children under their
names and asserts the names are pairwise distinct, so several unnamed
parameterless modules of the same kind (which share a default name) are
rejected with an `AssertionError`. Consistent with `demo.py`:
`test_sequential_module_with_relu_tanh_sigmoid` (one unnamed ReLU, Tanh and
Sigmoid together) must succeed, while
`test_assertion_error_with_multiple_unnamed_sigmoid` (two unnamed Sigmoids,
not adjacent) must raise. A fresh model starts in training mode. -/
def Sequential' (ms : List SModule) : Except PyErr SeqNet :=
  if (ms.map (fun m => m.name)).Nodup then
    .ok { training := true, layers := ms }
  else
    .error (.assertionError
      "Multiple unnamed parameterless modules share a default name; please name them explicitly")

/-- Modelled from the spec: a module's backward pass asserts that a preceding
forward pass has populated its saved-for-backward state before using it. The
gradient arithmetic of the hidden library is outside the spec; the saved state
it would consume is returned. -/
def SModule.backward (m : SModule) (_gradOutput : Option (List (List ℚ))) :
    Except PyErr (List (List ℚ)) :=
  match m.saveForBackward with
  | none => .error (.assertionError "Cannot call backward before any forward pass")
  | some saved => .ok saved

/-- Modelled from the spec: a model's backward pass asserts every child has
saved-for-backward state from a preceding forward pass. -/
def SeqNet.backward (net : SeqNet) (_gradOutput : List (List ℚ)) :
    Except PyErr SeqNet :=
  if net.layers.all (fun m => m.saveForBackward.isSome) then .ok net
  else .error (.assertionError "Cannot call backward before any forward pass")

/-- `model.eval()`: switch the model to evaluation mode. -/
def SeqNet.evalMode (net : SeqNet) : SeqNet := { net with training := false }

/-- `model.train()`: switch the model back to training mode. -/
def SeqNet.trainMode (net : SeqNet) : SeqNet := { net with training := true }

/-- Modelled from the spec: the forward pass through the children. In training
mode each module saves its input for the backward pass; in evaluation mode the
saved-for-backward state is left untouched. `f` gives the numeric semantics of
each layer kind. -/
def seqForwardAux (f : LayerKind → List (List ℚ) → List (List ℚ))
    (training : Bool) :
    List (List ℚ) → List SModule → List (List ℚ) × List SModule
  | x, [] => (x, [])
  | x, m :: rest =>
      let y := f m.kind x
      let m1 := if training then { m with saveForBackward := some x } else m
      let r := seqForwardAux f training y rest
      (r.1, m1 :: r.2)

/-- `model(input)`: forward pass of a sequential model, returning the output
and the model with updated module states. -/
def seqForward (f : LayerKind → List (List ℚ) → List (List ℚ))
    (net : SeqNet) (x : List (List ℚ)) : List (List ℚ) × SeqNet :=
  let r := seqForwardAux f net.training x net.layers
  (r.1, { net with layers := r.2 })

/-- `demo.py` lines 52-59, `test_model_bce`: switch to evaluation mode, run a
forward pass, threshold the output at 0.5 against the target, switch back to
training mode, and return the accuracy together with the updated model. -/
def test_model_bce (f : LayerKind → List (List ℚ) → List (List ℚ))
    (net : SeqNet) (testInput : List (List ℚ)) (testTarget : List ℚ) :
    ℚ × SeqNet :=
  let net1 := net.evalMode
  let fwd := seqForward f net1 testInput
  let preds := fwd.1.map (fun row => decide ((1 : ℚ) / 2 ≤ row.getD 0 0))
  let acc := ((preds.zip testTarget).map
      (fun q => if q.1 = decide (q.2 = 1) then (1 : ℚ) else 0)).sum
    / (testInput.length : ℚ)
  (acc, fwd.2.trainMode)

/-- `demo.py` lines 61-68, `test_model_bceWithLogits`: as `test_model_bce`,
except the raw output is first passed through a Sigmoid layer. -/
def test_model_bceWithLogits (f : LayerKind → List (List ℚ) → List (List ℚ))
    (net : SeqNet) (testInput : List (List ℚ)) (testTarget : List ℚ) :
    ℚ × SeqNet :=
  let net1 := net.evalMode
  let fwd := seqForward f net1 testInput
  let probs := f .sigmoid fwd.1
  let preds := probs.map (fun row => decide ((1 : ℚ) / 2 ≤ row.getD 0 0))
  let acc := ((preds.zip testTarget).map
      (fun q => if q.1 = decide (q.2 = 1) then (1 : ℚ) else 0)).sum
    / (testInput.length : ℚ)
  (acc, fwd.2.trainMode)

/-! ## The training-and-testing loop (`train_and_test_model`)

`demo.py` lines 111-134. The Python function is itself parameterized by the
model, the criterion and the accuracy function; the embedding mirrors that by
taking the library operations as a record of functions over abstract model and
criterion states, with the data already closed over. -/

/-- The library surface `train_and_test_model` consumes: model state `M`,
criterion state `C`, model output `Out`, output gradient `Grad`. Fallible
library calls (the criterion, its backward, the model backward) return
`Except PyErr`. -/
structure TrainSetup (M C Out Grad : Type) where
  zeroGradFn : M → M
  forward : M → Out × M
  criterion : C → Out → Except PyErr (ℚ × C)
  criterionBackward : C → Except PyErr Grad
  testAccFn : M → ℚ × M
  trainAccFn : M → ℚ × M
  modelBackward : M → Grad → Except PyErr M
  step : M → M

/-- One epoch of `train_and_test_model` (demo.py lines 121-133): zero_grad,
forward, loss (appended), test accuracy (appended), train accuracy (appended),
criterion backward, model backward, optimizer step. Returns the recorded
`(loss, train_acc, test_acc)` triple and the next `(model, criterion)`
state. -/
def epochBody {M C Out Grad : Type} (s : TrainSetup M C Out Grad)
    (m : M) (c : C) : Except PyErr ((ℚ × ℚ × ℚ) × M × C) := do
  let m0 := s.zeroGradFn m
  let fwd := s.forward m0
  let lc ← s.criterion c fwd.1
  let ta := s.testAccFn fwd.2
  let tra := s.trainAccFn ta.2
  let grad ← s.criterionBackward lc.2
  let mb ← s.modelBackward tra.2 grad
  .ok ((lc.1, tra.1, ta.1), (s.step mb, lc.2))

/-- `demo.py` lines 111-134, `train_and_test_model`: run `nb_epochs` epochs,
recording one loss, one train accuracy and one test accuracy per epoch, and
return `(loss_history, train_acc_history, test_acc_history)`. Any assertion
raised by a library call aborts the whole run. -/
def train_and_test_model {M C Out Grad : Type} (s : TrainSetup M C Out Grad) :
    ℕ → M → C → Except PyErr (List ℚ × List ℚ × List ℚ)
  | 0, _, _ => .ok ([], [], [])
  | n + 1, m, c =>
      match epochBody s m c with
      | .error e => .error e
      | .ok r =>
          match train_and_test_model s n r.2.1 r.2.2 with
          | .error e => .error e
          | .ok rest =>
              .ok (r.1.1 :: rest.1, r.1.2.1 :: rest.2.1, r.1.2.2 :: rest.2.2)

/-- The `(model, criterion)` state reached after `e` completed epochs, or
`none` if some epoch before that aborted. -/
def iterState {M C Out Grad : Type} (s : TrainSetup M C Out Grad) :
    ℕ → M → C → Option (M × C)
  | 0, m, c => some (m, c)
  | n + 1, m, c =>
      match epochBody s m c with
      | .ok r => iterState s n r.2.1 r.2.2
      | .error _ => none

/-! ## BCELoss instantiation (for the negative Sigmoid test)

Modelled from the spec: `BCELoss` may only be applied to the output of a model
whose final layer is a Sigmoid; otherwise it raises an `AssertionError`. Its
real-valued loss and gradient are abstracted by parameters. -/

/-- Whether the final layer of a sequential model is a Sigmoid. -/
def lastIsSigmoid (net : SeqNet) : Bool :=
  match net.layers.getLast? with
  | some m => decide (m.kind = LayerKind.sigmoid)
  | none => false

/-- Modelled from the spec: `BCELoss` forward — asserts the output comes from
a final Sigmoid layer (the output value carries that flag), then saves the
output for its backward pass. The numeric loss is abstracted by `lossVal`. -/
def bceCriterion (lossVal : List (List ℚ) → ℚ)
    (_c : Option (List (List ℚ))) (out : List (List ℚ) × Bool) :
    Except PyErr (ℚ × Option (List (List ℚ))) :=
  if out.2 then .ok (lossVal out.1, some out.1)
  else .error (.assertionError
    "BCELoss requires a model whose final layer is a Sigmoid")

/-- Modelled from the spec: `BCELoss.backward` asserts a forward pass has
saved its state; the numeric gradient is abstracted by `gradVal`. -/
def bceCriterionBackward (gradVal : List (List ℚ) → List (List ℚ))
    (c : Option (List (List ℚ))) : Except PyErr (List (List ℚ)) :=
  match c with
  | none => .error (.assertionError "Cannot call backward before any forward pass")
  | some saved => .ok (gradVal saved)

/-- The `TrainSetup` used by the BCELoss tests of `demo.py`: the model is a
`SeqNet` run by `seqForward`, the criterion is `BCELoss`, the accuracy
function is `test_model_bce`, and the data is the 4-tuple from
`load_mock_test_data`. The optimizer's parameter update is abstracted by
`stepFn` (parameter gradients of the hidden library are not modelled, so
`zero_grad` does not touch the modelled state). -/
def bceSetup (f : LayerKind → List (List ℚ) → List (List ℚ))
    (lossVal : List (List ℚ) → ℚ)
    (gradVal : List (List ℚ) → List (List ℚ))
    (stepFn : SeqNet → SeqNet) (d : LoadedData) :
    TrainSetup SeqNet (Option (List (List ℚ))) (List (List ℚ) × Bool)
      (List (List ℚ)) :=
  { zeroGradFn := id
    forward := fun m =>
      let fwd := seqForward f m d.trainInput
      ((fwd.1, lastIsSigmoid m), fwd.2)
    criterion := fun c out => bceCriterion lossVal c out
    criterionBackward := bceCriterionBackward gradVal
    testAccFn := fun m =>
      test_model_bce f m d.testInput (d.testTarget.map (fun r => r.getD 0 0))
    trainAccFn := fun m =>
      test_model_bce f m d.trainInput (d.trainTarget.map (fun r => r.getD 0 0))
    modelBackward := SeqNet.backward
    step := stepFn }

/-- The model of `test_assertion_error_without_sigmoid_before_BCELoss`
(demo.py lines 256-259): its final layer is a Linear, not a Sigmoid. -/
def bceModelNoSigmoid : List SModule :=
  [Linear "fc1" 2 6, ReLU, Linear "fc2" 6 4, Tanh, Linear "fc3" 4 1]

/-! ## The negative-test harness (try/except AssertionError) -/

/-- The `try/except AssertionError` pattern shared by the three negative tests
of `demo.py`: run the body; an `AssertionError` is caught, its message printed
and the function returns normally; if nothing is raised, the
"Uncorrect behavior" line is printed; any other error propagates. The result
is the line printed. -/
def negativeTestHarness {α : Type} (body : Except PyErr α) :
    Except PyErr String :=
  match body with
  | .ok _ => .ok "Uncorrect behavior, error should have been thrown."
  | .error (.assertionError msg) => .ok msg
  | .error e => .error e

/-- `demo.py` lines 208-219: construct a Sequential with two unnamed Sigmoid
layers inside the try/except harness. -/
def test_assertion_error_with_multiple_unnamed_sigmoid : Except PyErr String :=
  negativeTestHarness (Sequential'
    [Linear "fc1" 2 6, ReLU, Linear "fc2" 6 2, Sigmoid,
     Linear "fc3" 2 1, Sigmoid])

/-- `demo.py` lines 242-250: call `backward(None)` on a freshly constructed
`Linear('fc1', 2, 3)` inside the try/except harness. -/
def test_assertion_error_when_calling_backward_first : Except PyErr String :=
  negativeTestHarness ((Linear "fc1" 2 3).backward none)

/-- `demo.py` lines 253-266: build the non-Sigmoid model and load the data
(both outside the try block, so loader errors propagate), then run
`train_and_test_model` with `BCELoss` for 301 epochs inside the harness. -/
def test_assertion_error_without_sigmoid_before_BCELoss
    (loader : Except PyErr LoadedData)
    (f : LayerKind → List (List ℚ) → List (List ℚ))
    (lossVal : List (List ℚ) → ℚ)
    (gradVal : List (List ℚ) → List (List ℚ))
    (stepFn : SeqNet → SeqNet) : Except PyErr String := do
  let net ← Sequential' bceModelNoSigmoid
  let d ← loader
  negativeTestHarness
    (train_and_test_model
      (bceSetup f lossVal gradVal stepFn (load_mock_test_data d)) 301 net none)

/-! ## Gradient-tracking flag (frame model for `torch.set_grad_enabled`)

The global autograd flag is threaded explicitly; each epoch of a loop is
recorded as an event carrying the flag value under which it executed. -/

/-- An epoch event of a training function, tagged with the gradient-tracking
flag in force while it ran. -/
inductive GEvent where
  | customEpoch (gradEnabled : Bool)
  | torchEpoch (gradEnabled : Bool)
deriving DecidableEq, Repr

/-- `demo.py` lines 19-47, `train_custom_and_torch` as a trace over the
gradient-tracking flag: the custom loop runs under the incoming flag `g0`,
then `set_grad_enabled(True)` precedes the reference-framework loop, and
`set_grad_enabled(False)` precedes the return. Returns the event trace and
the flag at return. -/
def train_custom_and_torch_trace (g0 : Bool) (nbEpochs : ℕ) :
    List GEvent × Bool :=
  let customEvents := (List.range nbEpochs).map (fun _ => GEvent.customEpoch g0)
  let g1 := true
  let torchEvents := (List.range nbEpochs).map (fun _ => GEvent.torchEpoch g1)
  let g2 := false
  (customEvents ++ torchEvents, g2)

/-- `demo.py` lines 136-160, `train_and_test_model_torch` as a trace over the
gradient-tracking flag: `set_grad_enabled(True)` precedes the loop and
`set_grad_enabled(False)` precedes the return. -/
def train_and_test_model_torch_trace (_g0 : Bool) (nbEpochs : ℕ) :
    List GEvent × Bool :=
  let g1 := true
  let events := (List.range nbEpochs).map (fun _ => GEvent.torchEpoch g1)
  let g2 := false
  (events, g2)

/-! ## Theorems -/

/-- Helper: a list of singleton rows passes the width-one check. -/
lemma all_singleton_rows (l : List (List ℚ)) :
    ((l.map (fun row => [row.getD 1 0])).all fun row => row.length == 1)
      = true := by
  induction l with
  | nil => rfl
  | cons a t ih => simp [ih]

/-- C10: `load_mock_test_data` returns the loader's inputs unchanged and
replaces each target by column index 1 of the loader target reshaped to an
(N, 1) column, so both returned targets are one-dimensional-output targets. -/
theorem load_mock_test_data_spec (d : LoadedData) :
    (load_mock_test_data d).trainInput = d.trainInput ∧
    (load_mock_test_data d).testInput = d.testInput ∧
    (load_mock_test_data d).trainTarget.length = d.trainTarget.length ∧
    (load_mock_test_data d).testTarget.length = d.testTarget.length ∧
    ((load_mock_test_data d).trainTarget.all fun row => row.length == 1)
      = true ∧
    ((load_mock_test_data d).testTarget.all fun row => row.length == 1)
      = true ∧
    (load_mock_test_data d).trainTarget
      = d.trainTarget.map (fun row => [row.getD 1 0]) ∧
    (load_mock_test_data d).testTarget
      = d.testTarget.map (fun row => [row.getD 1 0]) := by
  refine ⟨rfl, rfl, ?_, ?_, ?_, ?_, rfl, rfl⟩
  · simp [load_mock_test_data]
  · simp [load_mock_test_data]
  · exact all_singleton_rows d.trainTarget
  · exact all_singleton_rows d.testTarget

/-- C4: calling `backward` on a freshly constructed `Linear` module, before
any forward pass has populated its saved-for-backward state, raises an
`AssertionError`; in particular `Linear('fc1', 2, 3).backward(None)` does. -/
theorem backward_before_forward_asserts (nm : String) (inF outF : ℕ) :
    (Linear nm inF outF).backward none
      = .error (.assertionError "Cannot call backward before any forward pass")
    := rfl

/-- C3 (counterexample): a Sequential model with two consecutive unnamed
activation-only layers of different kinds (an unnamed ReLU directly followed
by an unnamed Sigmoid) is accepted without any `AssertionError`. -/
theorem consecutive_unnamed_activations_accepted :
    Sequential' [Linear "fc1" 2 2, ReLU, Sigmoid, Linear "fc2" 2 1]
      = .ok { training := true,
              layers := [Linear "fc1" 2 2, ReLU, Sigmoid, Linear "fc2" 2 1] }
    := by rfl

/-- C3 (amended): constructing a Sequential model whose children's names are
not pairwise distinct — in particular one containing two or more unnamed
parameterless layers of the same kind, which share a default name, whether or
not they are consecutive — raises an `AssertionError`; in particular the
construction of `test_assertion_error_with_multiple_unnamed_sigmoid`, with
two non-adjacent unnamed Sigmoids, does. -/
theorem sequential_duplicate_names_assert :
    (∀ ms : List SModule, ¬ (ms.map (fun m => m.name)).Nodup →
      Sequential' ms = .error (.assertionError
        "Multiple unnamed parameterless modules share a default name; please name them explicitly")) ∧
    Sequential' [Linear "fc1" 2 6, ReLU, Linear "fc2" 6 2, Sigmoid,
        Linear "fc3" 2 1, Sigmoid]
      = .error (.assertionError
        "Multiple unnamed parameterless modules share a default name; please name them explicitly") := by
  constructor
  · intro ms h
    simp [Sequential', h]
  · rfl

/-- C3 witness: two unnamed Sigmoid layers are rejected. -/
theorem sequential_duplicate_names_assert_witness :
    Sequential' [Sigmoid, Sigmoid] = .error (.assertionError
      "Multiple unnamed parameterless modules share a default name; please name them explicitly") :=
  sequential_duplicate_names_assert.1 [Sigmoid, Sigmoid] (by decide)

/-- Helper: every element of a constant-valued map is that constant. -/
lemma mem_map_const {A B : Type} (c : B) (l : List A) (ev : B)
    (h : ev ∈ l.map fun _ => c) : ev = c := by
  rcases List.mem_map.1 h with ⟨a, -, hfa⟩
  exact hfa.symm

/-- Helper: an evaluation-mode forward pass leaves the module list
untouched. -/
lemma seqForwardAux_eval (f : LayerKind → List (List ℚ) → List (List ℚ))
    (x : List (List ℚ)) (ls : List SModule) :
    (seqForwardAux f false x ls).2 = ls := by
  induction ls generalizing x with
  | nil => rfl
  | cons m rest ih => simp [seqForwardAux, ih]

/-- C2: for a model whose modules all have populated saved-for-backward state
(a forward pass has completed), a forward pass run in evaluation mode leaves
every module's saved-for-backward state unchanged. -/
theorem eval_forward_preserves_save_for_backward
    (f : LayerKind → List (List ℚ) → List (List ℚ)) (net : SeqNet)
    (x : List (List ℚ)) (hEval : net.training = false)
    (_hPop : ∀ m ∈ net.layers, m.saveForBackward.isSome = true) :
    ((seqForward f net x).2).layers.map (fun m => m.saveForBackward)
      = net.layers.map (fun m => m.saveForBackward) := by
  simp [seqForward, hEval, seqForwardAux_eval]

/-- A model that has completed one training-mode forward pass and has been
switched to evaluation mode, as in
`test_not_corrupting_forward_variables_in_eval_mode`. -/
def evalNetExample : SeqNet :=
  ((seqForward (fun _ x => x)
      { training := true, layers := [Linear "fc1" 2 3, Tanh, Linear "fc2" 3 1] }
      [[1, 2]]).2).evalMode

/-- C2 witness: the concrete evaluation-mode model keeps its saved-for-backward
state across a second forward pass. -/
theorem eval_forward_preserves_save_for_backward_witness :
    evalNetExample.training = false ∧
    (evalNetExample.layers.all fun m => m.saveForBackward.isSome) = true ∧
    ((seqForward (fun _ x => x) evalNetExample [[5, 6]]).2).layers.map
        (fun m => m.saveForBackward)
      = evalNetExample.layers.map (fun m => m.saveForBackward) :=
  ⟨rfl, by decide,
   eval_forward_preserves_save_for_backward (fun _ x => x) evalNetExample
     [[5, 6]] rfl (by decide)⟩

/-- C8: `test_model_bce` and `test_model_bceWithLogits` switch the model to
evaluation mode for their forward pass and switch it back to training mode
before returning, so on normal return the model is in training mode. -/
theorem test_functions_restore_training_mode
    (f : LayerKind → List (List ℚ) → List (List ℚ)) (net : SeqNet)
    (ti : List (List ℚ)) (tt : List ℚ) :
    ((test_model_bce f net ti tt).2).training = true ∧
    ((test_model_bceWithLogits f net ti tt).2).training = true :=
  ⟨rfl, rfl⟩

/-- C9: `train_custom_and_torch` and `train_and_test_model_torch` enable
gradient tracking only around the reference-framework loop and disable it
before returning: the flag at return is false, every reference-framework epoch
runs with the flag true, and (when the flag was off on entry, as the module
sets it at import) every custom epoch runs with the flag false. -/
theorem grad_tracking_disabled_outside_torch_loops (g0 : Bool) (n : ℕ)
    (h : g0 = false) :
    (train_custom_and_torch_trace g0 n).2 = false ∧
    (train_and_test_model_torch_trace g0 n).2 = false ∧
    (∀ ev ∈ (train_custom_and_torch_trace g0 n).1,
      ∀ b, ev = GEvent.customEpoch b → b = false) ∧
    (∀ ev ∈ (train_custom_and_torch_trace g0 n).1,
      ∀ b, ev = GEvent.torchEpoch b → b = true) ∧
    (∀ ev ∈ (train_and_test_model_torch_trace g0 n).1,
      ∀ b, ev = GEvent.torchEpoch b → b = true) := by
  subst h
  have key : ∀ ev ∈ (train_custom_and_torch_trace false n).1,
      ev = GEvent.customEpoch false ∨ ev = GEvent.torchEpoch true := by
    intro ev hev
    rcases List.mem_append.1 hev with hc | ht
    · exact Or.inl (mem_map_const _ _ _ hc)
    · exact Or.inr (mem_map_const _ _ _ ht)
  refine ⟨rfl, rfl, ?_, ?_, ?_⟩
  · intro ev hev b hb
    subst hb
    rcases key _ hev with h | h <;> simp_all
  · intro ev hev b hb
    subst hb
    rcases key _ hev with h | h <;> simp_all
  · intro ev hev b hb
    subst hb
    have := mem_map_const _ _ _ hev
    simp_all

/-- C9 witness: a concrete run with the flag off on entry. -/
theorem grad_tracking_disabled_outside_torch_loops_witness :
    (train_custom_and_torch_trace false 2).2 = false ∧
    (train_and_test_model_torch_trace false 2).2 = false :=
  ⟨(grad_tracking_disabled_outside_torch_loops false 2 rfl).1,
   (grad_tracking_disabled_outside_torch_loops false 2 rfl).2.1⟩

/-- Helper: with the non-Sigmoid model, the first epoch's criterion call
already raises the BCELoss assertion. -/
lemma bce_epoch_asserts (f : LayerKind → List (List ℚ) → List (List ℚ))
    (lossVal : List (List ℚ) → ℚ)
    (gradVal : List (List ℚ) → List (List ℚ))
    (stepFn : SeqNet → SeqNet) (d : LoadedData) :
    epochBody (bceSetup f lossVal gradVal stepFn d)
        { training := true, layers := bceModelNoSigmoid } none
      = .error (.assertionError
          "BCELoss requires a model whose final layer is a Sigmoid") := rfl

/-- Helper: if the first epoch aborts, the whole training run aborts with the
same error. -/
lemma train_error_of_epoch_error {M C Out Grad : Type}
    (s : TrainSetup M C Out Grad) (n : ℕ) (m : M) (c : C) (e : PyErr)
    (h : epochBody s m c = .error e) :
    train_and_test_model s (n + 1) m c = .error e := by
  simp only [train_and_test_model, h]

/-- Helper: running `train_and_test_model` with `BCELoss` for 301 epochs on
the non-Sigmoid model aborts with the BCELoss assertion. -/
lemma bce_train_301_asserts (f : LayerKind → List (List ℚ) → List (List ℚ))
    (lossVal : List (List ℚ) → ℚ)
    (gradVal : List (List ℚ) → List (List ℚ))
    (stepFn : SeqNet → SeqNet) (d : LoadedData) :
    train_and_test_model (bceSetup f lossVal gradVal stepFn d) 301
        { training := true, layers := bceModelNoSigmoid } none
      = .error (.assertionError
          "BCELoss requires a model whose final layer is a Sigmoid") := by
  have h301 : (301 : ℕ) = 300 + 1 := rfl
  rw [h301]
  exact train_error_of_epoch_error _ 300 _ _ _
    (bce_epoch_asserts f lossVal gradVal stepFn d)

/-- C5: applying the `BCELoss` criterion to the output of a model whose final
layer is not a Sigmoid raises an `AssertionError`: running
`train_and_test_model` with `BCELoss` on
`Sequential(Linear('fc1',2,6), ReLU(), Linear('fc2',6,4), Tanh(),
Linear('fc3',4,1))` aborts with the assertion. -/
theorem bce_without_final_sigmoid_asserts
    (f : LayerKind → List (List ℚ) → List (List ℚ))
    (lossVal : List (List ℚ) → ℚ)
    (gradVal : List (List ℚ) → List (List ℚ))
    (stepFn : SeqNet → SeqNet) (d : LoadedData) (net : SeqNet)
    (h : Sequential' bceModelNoSigmoid = .ok net) :
    train_and_test_model
        (bceSetup f lossVal gradVal stepFn (load_mock_test_data d)) 301 net none
      = .error (.assertionError
          "BCELoss requires a model whose final layer is a Sigmoid") := by
  have hs : Sequential' bceModelNoSigmoid
      = .ok { training := true, layers := bceModelNoSigmoid } := rfl
  rw [hs] at h
  cases h
  exact bce_train_301_asserts f lossVal gradVal stepFn (load_mock_test_data d)

/-- C5 witness: a concrete instantiation of the numeric parameters and
loader data. -/
theorem bce_without_final_sigmoid_asserts_witness :
    train_and_test_model
        (bceSetup (fun _ x => x) (fun _ => 0) (fun g => g) (fun m => m)
          (load_mock_test_data
            { trainInput := [], trainTarget := [], testInput := [],
              testTarget := [] }))
        301 { training := true, layers := bceModelNoSigmoid } none
      = .error (.assertionError
          "BCELoss requires a model whose final layer is a Sigmoid") :=
  bce_without_final_sigmoid_asserts (fun _ x => x) (fun _ => 0) (fun g => g)
    (fun m => m)
    { trainInput := [], trainTarget := [], testInput := [], testTarget := [] }
    _ rfl

/-- C7: in each negative test, an `AssertionError` is caught and its message
is the line printed, the function returning normally; if no error is raised
the harness prints the "Uncorrect behavior" line; errors of any other type
(such as a failing data loader) propagate out uncaught. -/
theorem negative_tests_error_handling :
    test_assertion_error_with_multiple_unnamed_sigmoid
      = .ok "Multiple unnamed parameterless modules share a default name; please name them explicitly" ∧
    test_assertion_error_when_calling_backward_first
      = .ok "Cannot call backward before any forward pass" ∧
    (∀ (d : LoadedData) (f : LayerKind → List (List ℚ) → List (List ℚ))
        (lossVal : List (List ℚ) → ℚ)
        (gradVal : List (List ℚ) → List (List ℚ)) (stepFn : SeqNet → SeqNet),
      test_assertion_error_without_sigmoid_before_BCELoss
          (.ok d) f lossVal gradVal stepFn
        = .ok "BCELoss requires a model whose final layer is a Sigmoid") ∧
    (∀ (m : String) (f : LayerKind → List (List ℚ) → List (List ℚ))
        (lossVal : List (List ℚ) → ℚ)
        (gradVal : List (List ℚ) → List (List ℚ)) (stepFn : SeqNet → SeqNet),
      test_assertion_error_without_sigmoid_before_BCELoss
          (.error (.otherError m)) f lossVal gradVal stepFn
        = .error (.otherError m)) ∧
    negativeTestHarness (Except.ok ())
      = .ok "Uncorrect behavior, error should have been thrown." := by
  refine ⟨rfl, rfl, ?_, ?_, rfl⟩
  · intro d f lossVal gradVal stepFn
    show negativeTestHarness
        (train_and_test_model
          (bceSetup f lossVal gradVal stepFn (load_mock_test_data d)) 301
          { training := true, layers := bceModelNoSigmoid } none) = _
    rw [bce_train_301_asserts]
    rfl
  · intro m f lossVal gradVal stepFn
    rfl

/-- C6: when `train_and_test_model` returns normally after `nb_epochs` epochs,
the three returned histories each have length exactly `nb_epochs`, and element
`e` of each is the loss / train accuracy / test accuracy recorded during epoch
`e` (computed by `epochBody` from the state reached after `e` epochs). -/
theorem train_histories {M C Out Grad : Type} (s : TrainSetup M C Out Grad)
    (n : ℕ) (m : M) (c : C) (lh trh tah : List ℚ)
    (h : train_and_test_model s n m c = .ok (lh, trh, tah)) :
    lh.length = n ∧ trh.length = n ∧ tah.length = n ∧
    ∀ e < n, ∃ st r, iterState s e m c = some st ∧
      epochBody s st.1 st.2 = .ok r ∧
      lh.get? e = some r.1.1 ∧ trh.get? e = some r.1.2.1 ∧
      tah.get? e = some r.1.2.2 := by
  induction n generalizing m c lh trh tah with
  | zero =>
      simp only [train_and_test_model, Except.ok.injEq, Prod.mk.injEq] at h
      obtain ⟨h1, h2, h3⟩ := h
      subst h1; subst h2; subst h3
      exact ⟨rfl, rfl, rfl, fun e he => absurd he (Nat.not_lt_zero e)⟩
  | succ k ih =>
      simp only [train_and_test_model] at h
      cases hb : epochBody s m c with
      | error e => rw [hb] at h; simp at h
      | ok r =>
          rw [hb] at h
          dsimp only at h
          cases hrest : train_and_test_model s k r.2.1 r.2.2 with
          | error e => rw [hrest] at h; simp at h
          | ok rest =>
              rw [hrest] at h
              dsimp only at h
              simp only [Except.ok.injEq, Prod.mk.injEq] at h
              obtain ⟨h1, h2, h3⟩ := h
              subst h1; subst h2; subst h3
              obtain ⟨ihl, ihtr, ihta, ihidx⟩ :=
                ih r.2.1 r.2.2 rest.1 rest.2.1 rest.2.2 hrest
              refine ⟨by simp [ihl], by simp [ihtr], by simp [ihta], ?_⟩
              intro e he
              cases e with
              | zero => exact ⟨(m, c), r, rfl, hb, rfl, rfl, rfl⟩
              | succ e' =>
                  obtain ⟨st, r', hit, hep, hl, htr, hta⟩ :=
                    ihidx e' (Nat.lt_of_succ_lt_succ he)
                  refine ⟨st, r', ?_, hep, ?_, ?_, ?_⟩
                  · simpa [iterState, hb] using hit
                  · simpa using hl
                  · simpa using htr
                  · simpa using hta

/-- A trivial total instantiation of the library surface, for exercising the
training loop on concrete inputs. -/
def unitSetup : TrainSetup Unit Unit Unit Unit :=
  { zeroGradFn := fun u => u
    forward := fun u => ((), u)
    criterion := fun u _ => .ok (1, u)
    criterionBackward := fun _ => .ok ()
    testAccFn := fun u => (0, u)
    trainAccFn := fun u => (0, u)
    step := fun u => u
    modelBackward := fun u _ => .ok u }

/-- C6 witness: a concrete one-epoch run returns histories of length one. -/
theorem train_histories_witness :
    train_and_test_model unitSetup 1 () () = .ok ([1], [0], [0]) ∧
    ([1] : List ℚ).length = 1 ∧ ([0] : List ℚ).length = 1 :=
  ⟨rfl,
   (train_histories unitSetup 1 () () [1] [0] [0] rfl).1,
   (train_histories unitSetup 1 () () [1] [0] [0] rfl).2.1⟩

/-- Helper: pull the constant factor `2 / n` out of the per-sample gradient
terms. -/
lemma sum_map_ratio {α : Type} (l : List α) (u v : α → ℚ) (n : ℚ) :
    (l.map fun a => 2 * u a / n * v a).sum
      = 2 / n * (l.map fun a => u a * v a).sum := by
  induction l with
  | nil => simp
  | cons a t ih =>
      simp only [List.map_cons, List.sum_cons, ih]
      ring

/-- Helper: the bias variant of `sum_map_ratio`. -/
lemma sum_map_ratio1 {α : Type} (l : List α) (u : α → ℚ) (n : ℚ) :
    (l.map fun a => 2 * u a / n).sum = 2 / n * (l.map fun a => u a).sum := by
  induction l with
  | nil => simp
  | cons a t ih =>
      simp only [List.map_cons, List.sum_cons, ih]
      ring

/-- Helper: one custom epoch computes the same loss and the same updated
parameters as one reference-framework epoch from the same parameters. -/
lemma customEpoch_eq_torchEpoch (lr : ℚ) (data : List ((ℚ × ℚ) × ℚ))
    (m : CustomLinear) :
    (customEpoch lr data m).1 = (torchEpoch lr data m.p).1 ∧
    ((customEpoch lr data m).2).p = (torchEpoch lr data m.p).2 := by
  simp only [customEpoch, zeroGrad, linForward, mseApply, mseBackward,
    linBackward, sgdStep, torchEpoch, torchLoss, List.map_map,
    List.zip_map', List.length_map]
  constructor
  · simp only [Function.comp_def]
  · simp only [Function.comp_def, zero_add, sum_map_ratio, sum_map_ratio1]

/-- C1: from identical initial parameters, the per-epoch loss values of the
custom training loop and of the reference-framework training loop of
`train_custom_and_torch` coincide exactly (over exact arithmetic), for every
dataset, learning rate and number of epochs — in particular for the 301
epochs at lr = 0.01 of `test_standalone_linear_module`. -/
theorem custom_and_torch_loss_histories_match (lr : ℚ)
    (data : List ((ℚ × ℚ) × ℚ)) (p : LinParams) (n : ℕ) :
    customLossHistory lr data (CustomLinear.init p) n
      = torchLossHistory lr data p n := by
  suffices h : ∀ (k : ℕ) (m : CustomLinear),
      customLossHistory lr data m k = torchLossHistory lr data m.p k by
    exact h n (CustomLinear.init p)
  intro k
  induction k with
  | zero => intro m; rfl
  | succ j ih =>
      intro m
      show (customEpoch lr data m).1
          :: customLossHistory lr data (customEpoch lr data m).2 j
        = (torchEpoch lr data m.p).1
          :: torchLossHistory lr data (torchEpoch lr data m.p).2 j
      have h := customEpoch_eq_torchEpoch lr data m
      rw [h.1, ih ((customEpoch lr data m).2), h.2]
